import Mathlib

/-!
Verification development for the total-keepers backend: a shallow embedding of
the secure order-pricing and Redsys payment-settlement pipeline
(`app/services/order_service.py`, `app/services/payment_service.py`,
`app/services/discount_service.py`, `app/services/product_service.py`,
`app/models/*.py`), together with theorems settling the specification claims.

Modelling conventions:
* Python `float` and `Decimal` money values are both modelled as exact
  rationals (`ℚ`).  `Decimal` addition/subtraction/multiplication is exact, so
  the pricing arithmetic is represented faithfully; `float` values are the
  decimal constants the database/requests carry.
* Python `round(x, 2)` (half-to-even) and `Decimal.quantize(Decimal("0.01"),
  ROUND_HALF_UP)` are modelled by `pyRound2` and `quantizeHalfUp2`.
* The SQLAlchemy session is modelled as an explicit `Db` value holding the
  table contents; every service call threads the `Db` and returns the state
  as committed when the call finishes (a raised exception before any commit
  leaves the `Db` unchanged, mirroring `db.rollback()`).
* `datetime.now(timezone.utc)` is an `Int` environment parameter (`now`);
  timestamps that no claim mentions (created_at, updated_at, processed_at,
  request/response times) are elided from the row structures.
-/

set_option allowUnsafeReducibility true in
attribute [semireducible] Rat.mul Rat.add Rat.sub Rat.inv Rat.ofScientific

namespace TotalKeepers

/-- Python `str.lower()` (ASCII case folding, which covers every identifier
this system stores). -/
def pyLower (s : String) : String := String.mk (s.data.map Char.toLower)

/-- Python `str.strip()`: remove leading and trailing whitespace. -/
def pyStrip (s : String) : String :=
  String.mk (((s.data.dropWhile Char.isWhitespace).reverse.dropWhile
    Char.isWhitespace).reverse)

/-- Round a rational to the nearest integer, ties to even
(the semantics of Python `round` on the exact value). -/
def rndHalfEven (q : ℚ) : ℤ :=
  let f := ⌊q⌋
  let r := q - (f : ℚ)
  if r < 1/2 then f
  else if 1/2 < r then f + 1
  else if f % 2 = 0 then f else f + 1

/-- Python `round(x, 2)`: half-to-even at two decimal places. -/
def pyRound2 (q : ℚ) : ℚ := (rndHalfEven (q * 100) : ℚ) / 100

/-- Python `Decimal(...).quantize(Decimal("0.01"), rounding=ROUND_HALF_UP)`:
two decimal places, ties away from zero. -/
def quantizeHalfUp2 (q : ℚ) : ℚ :=
  if 0 ≤ q then ((⌊q * 100 + 1/2⌋ : ℚ) / 100)
  else -((⌊(-q) * 100 + 1/2⌋ : ℚ) / 100)

/-- Replace the first list element satisfying `p` by its image under `f`
(the functional rendering of mutating the single ORM object returned by
`query(...).first()`). -/
def updateFirst (p : α → Bool) (f : α → α) : List α → List α
  | [] => []
  | x :: xs => if p x then f x :: xs else x :: updateFirst p f xs

/-- Source `app/models/product.py` `Product` (columns no claim mentions elided). -/
structure Product where
  id : String
  name : String
  price : ℚ
  discount_price : Option ℚ
deriving DecidableEq

/-- Source `Product.get_current_price`: discount price if set, else base price. -/
def Product.get_current_price (p : Product) : ℚ :=
  p.discount_price.getD p.price

/-- Source `app/models/product.py` `ProductSize`: per (product, size) stock row. -/
structure ProductSize where
  product_id : String
  size : String
  stock_quantity : Int
  is_available : Bool
deriving DecidableEq

/-- Source `app/models/discount_code.py` `DiscountCode`.  `start_date`/`end_date`
are instants on the same `Int` timeline as `now`. -/
structure DiscountCode where
  code : String
  discount_type : String            -- "percentage" or "fixed"
  discount_value : ℚ
  min_order_amount : ℚ
  max_discount_amount : Option ℚ
  is_active : Bool
  start_date : Option Int
  end_date : Option Int
  max_uses : Option Int
  current_uses : Int
deriving DecidableEq

/-- Source `DiscountCode.is_valid(order_amount)`.  The returned message text is
abbreviated; only its presence is ever consumed.  Note the Python truthiness
test `if self.max_uses and ...`: a `max_uses` of `None` or `0` disables the
usage-limit check. -/
def DiscountCode.is_valid (dc : DiscountCode) (now : Int) (order_amount : ℚ) :
    Bool × String :=
  if dc.is_active = false then (false, "not active")
  else if (match dc.start_date with
           | some s => decide (now < s)
           | none => false) then (false, "not yet active")
  else if (match dc.end_date with
           | some e => decide (e < now)
           | none => false) then (false, "expired")
  else if (match dc.max_uses with
           | some m => decide (m ≠ 0) && decide (m ≤ dc.current_uses)
           | none => false) then (false, "usage limit reached")
  else if order_amount < dc.min_order_amount then (false, "minimum order amount required")
  else (true, "")

/-- The base amount of `DiscountCode.calculate_discount`: percentage of the
order amount for a percentage code, the fixed value otherwise. -/
def DiscountCode.base_discount (dc : DiscountCode) (order_amount : ℚ) : ℚ :=
  if dc.discount_type = "percentage" then order_amount * (dc.discount_value / 100)
  else dc.discount_value

/-- The `max_discount_amount` cap step of `calculate_discount`.  Truthiness
again: a cap of `None` or `0` applies no cap. -/
def DiscountCode.cap_discount (dc : DiscountCode) (d : ℚ) : ℚ :=
  match dc.max_discount_amount with
  | some c => if c ≠ 0 then min d c else d
  | none => d

/-- Source `DiscountCode.calculate_discount(order_amount)`: 0 when invalid, else the
base amount, capped, clamped to the order amount, rounded 2 places
(half-to-even, via Python `round`). -/
def DiscountCode.calculate_discount (dc : DiscountCode) (now : Int)
    (order_amount : ℚ) : ℚ :=
  if (dc.is_valid now order_amount).1 = false then 0
  else pyRound2 (min (dc.cap_discount (dc.base_discount order_amount)) order_amount)

/-- Source `DiscountCode.increment_usage`. -/
def DiscountCode.increment_usage (dc : DiscountCode) : DiscountCode :=
  { dc with current_uses := dc.current_uses + 1 }

/-- Source `app/models/order.py` `Order` (contact/address columns other than the
email, and all timestamps, elided).  `status` and `payment_status` hold the
enum values the services write. -/
structure Order where
  id : String
  status : String
  payment_status : String
  subtotal : ℚ
  tax_amount : ℚ
  shipping_amount : ℚ
  discount_amount : ℚ
  total_amount : ℚ
  payment_reference : Option String
  customer_email : String
deriving DecidableEq

/-- Source `app/models/order.py` `OrderItem`. -/
structure OrderItem where
  order_id : String
  product_id : String
  size : String
  quantity : Int
  unit_price : ℚ
  total_price : ℚ
deriving DecidableEq

/-- Source `app/models/payment.py` `Payment` (provider fixed to Redsys; URLs and
timestamps elided). -/
structure Payment where
  id : String
  order_id : String
  status : String
  amount : ℚ
  provider_transaction_id : Option String
deriving DecidableEq

/-- Source `app/models/payment.py` `RedsysTransaction` (response columns no claim
mentions elided; the audit copies of the raw parameters/signature are kept). -/
structure RedsysTransaction where
  id : String
  payment_id : String
  ds_order : String
  response_ds_order : Option String
  response_ds_response : Option String
  response_ds_transaction_id : Option String
  response_ds_merchant_parameters : Option String
  response_ds_signature : Option String
  signature_verified : Bool
deriving DecidableEq

/-- Source `RedsysTransaction.is_approved`: `False` when no response code is stored,
else exact string comparison with `RedsysResponseCode.APPROVED.value`
(`"0000"`). -/
def RedsysTransaction.is_approved (t : RedsysTransaction) : Bool :=
  match t.response_ds_response with
  | none => false
  | some r => r = "0000"

/-- The database state threaded through the services, plus a log of the
success-notification dispatch attempts made through
`EmailService.send_payment_success_notification` (one entry per attempted
dispatch, holding the order id). -/
structure Db where
  products : List Product
  productSizes : List ProductSize
  discountCodes : List DiscountCode
  orders : List Order
  orderItems : List OrderItem
  payments : List Payment
  redsysTransactions : List RedsysTransaction
  notificationLog : List String
deriving DecidableEq

/-- Query `db.query(Product).filter(Product.id == pid).first()`. -/
def findProduct (db : Db) (pid : String) : Option Product :=
  db.products.find? (fun p => p.id == pid)

/-- Query `db.query(ProductSize).filter(and_(product_id == pid, size == s)).first()`. -/
def findProductSize (db : Db) (pid s : String) : Option ProductSize :=
  db.productSizes.find? (fun ps => ps.product_id == pid && ps.size == s)

/-- Query `db.query(DiscountCode).filter(DiscountCode.code.ilike(code.strip())).first()`:
case-insensitive match of the stored code against the stripped argument. -/
def findDiscountCode (db : Db) (code : String) : Option DiscountCode :=
  db.discountCodes.find? (fun dc => pyLower dc.code == pyLower (pyStrip code))

/-- Query `db.query(Order).filter(Order.id == oid).first()` (also the
`payment.order` relationship). -/
def findOrder (db : Db) (oid : String) : Option Order :=
  db.orders.find? (fun o => o.id == oid)

/-- Query `db.query(Payment).filter(Payment.id == pid).first()` (also the
`redsys_transaction.payment` relationship, which joins on `payment_id`). -/
def findPayment (db : Db) (pid : String) : Option Payment :=
  db.payments.find? (fun p => p.id == pid)

/-- Query `db.query(RedsysTransaction).filter(RedsysTransaction.ds_order == o).first()`. -/
def findTransaction (db : Db) (dsOrder : String) : Option RedsysTransaction :=
  db.redsysTransactions.find? (fun t => t.ds_order == dsOrder)

/-- The `order.items` relationship: all `OrderItem` rows of the order. -/
def orderItemsOf (db : Db) (oid : String) : List OrderItem :=
  db.orderItems.filter (fun it => it.order_id == oid)

/-- Source `ProductService.reduce_stock` (`app/services/product_service.py`):
check-and-decrement on the (product, size) stock row; `false` and no write
when the row is absent or stock is insufficient, else decrement by exactly
`quantity`, set `is_available = new_quantity > 0`, commit, return `true`. -/
def reduce_stock (db : Db) (product_id size : String) (quantity : Int) :
    Bool × Db :=
  match findProductSize db product_id size with
  | none => (false, db)
  | some ps =>
    if ps.stock_quantity < quantity then (false, db)
    else
      let new_quantity := ps.stock_quantity - quantity
      (true,
        { db with
          productSizes :=
            updateFirst (fun p => p.product_id == product_id && p.size == size)
              (fun p => { p with stock_quantity := new_quantity,
                                 is_available := decide (0 < new_quantity) })
              db.productSizes })

/-- Source `app/schemas/order.py` `OrderItemRequest` (client-submitted line item). -/
structure OrderItemRequest where
  product_id : String
  product_name : String
  product_price : ℚ
  quantity : Int
  selected_size : Option String
deriving DecidableEq

/-- Source `app/schemas/order.py` `CreateOrderRequest` (shipping-address fields other
than the email elided: the services only copy them into the order row). -/
structure CreateOrderRequest where
  items : List OrderItemRequest
  promo_code : Option String
  shipping_email : String
deriving DecidableEq

/-- The `HTTPException`s raised by `SecureOrderService` (status codes and
message formatting elided; the constructor arguments carry the data the
messages interpolate). -/
inductive OrderError where
  | productNotFound (product_id : String)
  | priceMismatch (product_id : String) (expected received : ℚ)
  | nameMismatch (product_id : String)
  | invalidQuantity (product_id : String) (quantity : Int)
  | persistFailed
deriving DecidableEq

/-- An entry of the `validated_items` list built by
`SecureOrderService._validate_order_items`. -/
structure ValidatedItem where
  product : Product
  quantity : Int
  selected_size : Option String
  unit_price : ℚ
  line_total : ℚ
deriving DecidableEq

/-- Source `SecureOrderService._validate_order_items`: for each item in order, look
up the product (absent ⇒ not-found error), compare the submitted price with
the authoritative current price under the 0.01 absolute tolerance, compare
the lowercased/stripped names, and check `0 < quantity ≤ 99`; the first
failing check aborts the whole call. -/
def validate_order_items (db : Db) :
    List OrderItemRequest → Except OrderError (List ValidatedItem)
  | [] => .ok []
  | item :: rest =>
    match findProduct db item.product_id with
    | none => .error (.productNotFound item.product_id)
    | some product =>
      let current_price := product.get_current_price
      if 1/100 < |current_price - item.product_price| then
        .error (.priceMismatch item.product_id current_price item.product_price)
      else if pyStrip (pyLower product.name) ≠ pyStrip (pyLower item.product_name) then
        .error (.nameMismatch item.product_id)
      else if item.quantity ≤ 0 ∨ 99 < item.quantity then
        .error (.invalidQuantity item.product_id item.quantity)
      else
        match validate_order_items db rest with
        | .error e => .error e
        | .ok tail =>
          .ok ({ product := product,
                 quantity := item.quantity,
                 selected_size := item.selected_size,
                 unit_price := current_price,
                 line_total := current_price * item.quantity } :: tail)

/-- Source `DiscountCodeService.apply_discount_code`: returns the updated database,
the discount amount, and the error message (`none` = success).  On success
the usage counter of the found code is incremented and committed before
returning. -/
def apply_discount_code (db : Db) (now : Int) (code : String)
    (order_amount : ℚ) : Db × ℚ × Option String :=
  match findDiscountCode db code with
  | none => (db, 0, some "Invalid discount code")
  | some dc =>
    let v := dc.is_valid now order_amount
    if v.1 = false then (db, 0, some v.2)
    else
      let discount_amount := dc.calculate_discount now order_amount
      ({ db with
         discountCodes :=
           updateFirst (fun c => pyLower c.code == pyLower (pyStrip code))
             DiscountCode.increment_usage db.discountCodes },
       discount_amount, none)

/-- The pricing dictionary returned by `SecureOrderService._calculate_pricing`. -/
structure Pricing where
  subtotal : ℚ
  discount_amount : ℚ
  tax_amount : ℚ
  shipping_cost : ℚ
  total : ℚ
  discount_percent : ℚ
deriving DecidableEq

/-- Source `SHIPPING_RULES["free_shipping_threshold"]`. -/
def free_shipping_threshold : Int := 2

/-- Source `SHIPPING_RULES["standard_shipping_cost"]` (`Decimal("3.00")`). -/
def standard_shipping_cost : ℚ := 3

/-- The promo-code block of `SecureOrderService._calculate_pricing`, extracted
as a helper: when a promo code is present (Python truthiness: `if promo_code:`
skips both `None` and the empty string), delegate to `apply_discount_code` on
the stripped code; on success quantize the returned amount to 0.01
(ROUND_HALF_UP) and derive the display percentage; on failure log and proceed
with zero discount.  Returns (database, discount_amount, discount_percent). -/
def resolve_discount (db : Db) (now : Int) (promo_code : Option String)
    (subtotal : ℚ) : Db × ℚ × ℚ :=
  match promo_code with
  | none => (db, 0, 0)
  | some pc =>
    if pc = "" then (db, 0, 0)
    else
      let r := apply_discount_code db now (pyStrip pc) subtotal
      match r.2.2 with
      | none =>
        let discount_amount := quantizeHalfUp2 r.2.1
        let discount_percent : ℚ :=
          if 0 < subtotal then (discount_amount / subtotal) * 100 else 0
        (r.1, discount_amount, discount_percent)
      | some _ => (r.1, 0, 0)

/-- Source `SecureOrderService._calculate_pricing`: subtotal and total quantity over
the validated items; shipping 0 iff total quantity reaches the threshold;
discount through `resolve_discount` (the promo-code block); tax fixed at 0;
`total = subtotal - discount + tax + shipping`. -/
def calculate_pricing (db : Db) (now : Int) (validated_items : List ValidatedItem)
    (promo_code : Option String) : Db × Pricing :=
  let subtotal : ℚ := (validated_items.map (fun v => v.line_total)).sum
  let total_quantity : Int := (validated_items.map (fun v => v.quantity)).sum
  let shipping_cost : ℚ :=
    if free_shipping_threshold ≤ total_quantity then 0 else standard_shipping_cost
  let step : Db × ℚ × ℚ := resolve_discount db now promo_code subtotal
  let tax_amount : ℚ := 0
  (step.1,
   { subtotal := subtotal,
     discount_amount := step.2.1,
     tax_amount := tax_amount,
     shipping_cost := shipping_cost,
     total := subtotal - step.2.1 + tax_amount + shipping_cost,
     discount_percent := step.2.2 })

/-- Environment of one `validate_and_create_order` call: the current instant,
the generated identifiers, and the outcome of the two fallible effects the
source performs (the Order/OrderItem insert transaction of
`_create_order_record`, and `redsys_service.create_payment` inside
`_generate_payment_url`, whose failure is swallowed). -/
structure OrderEnv where
  now : Int
  newOrderId : String
  persistOk : Bool
  paymentInitOk : Bool
  newPaymentId : String
  newDsOrder : String
  redirectUrl : String
deriving DecidableEq

/-- Source `SecureOrderService._generate_payment_url`: delegates to
`redsys_service.create_payment`, which inserts and commits a pending
`Payment` and its `RedsysTransaction` (whose `ds_order`, supplied here as
`env.newDsOrder`, stands for `_generate_ds_order(payment.id)` evaluated at
the call instant) and returns the redirect URL; any exception is caught,
rolled back and turned into `None` without failing the order. -/
def generate_payment_url (env : OrderEnv) (db : Db) (order_id : String)
    (total : ℚ) : Db × Option String :=
  if env.paymentInitOk = false then (db, none)
  else
    ({ db with
       payments := db.payments ++
         [{ id := env.newPaymentId, order_id := order_id, status := "pending",
            amount := total, provider_transaction_id := none }],
       redsysTransactions := db.redsysTransactions ++
         [{ id := env.newPaymentId, payment_id := env.newPaymentId,
            ds_order := env.newDsOrder, response_ds_order := none,
            response_ds_response := none, response_ds_transaction_id := none,
            response_ds_merchant_parameters := none,
            response_ds_signature := none, signature_verified := false }] },
     some env.redirectUrl)

/-- Source `app/schemas/order.py` `OrderResponse`. -/
structure OrderResponse where
  order_id : String
  status : String
  total_amount : ℚ
  subtotal : ℚ
  tax_amount : ℚ
  shipping_amount : ℚ
  discount_amount : ℚ
  payment_url : Option String
deriving DecidableEq

/-- Source `SecureOrderService.validate_and_create_order`: validate the items
(aborting with no write on failure), compute pricing (which may commit a
discount-usage increment), persist the order header and its items in one
transaction (`_create_order_record`; `env.persistOk = false` models that
transaction failing, which surfaces as a 500 after the discount commit), then
attempt payment-request generation (non-fatal). -/
def validate_and_create_order (env : OrderEnv) (db : Db)
    (req : CreateOrderRequest) : Db × Except OrderError OrderResponse :=
  match validate_order_items db req.items with
  | .error e => (db, .error e)
  | .ok validated_items =>
    let priced := calculate_pricing db env.now validated_items req.promo_code
    let db1 := priced.1
    let pricing := priced.2
    if env.persistOk = false then (db1, .error .persistFailed)
    else
      let order : Order :=
        { id := env.newOrderId, status := "pending", payment_status := "pending",
          subtotal := pricing.subtotal, tax_amount := pricing.tax_amount,
          shipping_amount := pricing.shipping_cost,
          discount_amount := pricing.discount_amount,
          total_amount := pricing.total, payment_reference := none,
          customer_email := req.shipping_email }
      let items : List OrderItem := validated_items.map (fun v =>
        { order_id := env.newOrderId, product_id := v.product.id,
          size := v.selected_size.getD "", quantity := v.quantity,
          unit_price := v.unit_price, total_price := v.line_total })
      let db2 : Db :=
        { db1 with orders := db1.orders ++ [order],
                   orderItems := db1.orderItems ++ items }
      let paid := generate_payment_url env db2 order.id pricing.total
      (paid.1,
       .ok { order_id := order.id, status := order.status,
             total_amount := pricing.total, subtotal := pricing.subtotal,
             tax_amount := pricing.tax_amount,
             shipping_amount := pricing.shipping_cost,
             discount_amount := pricing.discount_amount,
             payment_url := paid.2 })

/-- Source `app/schemas/payment.py` `RedsysCallbackData`: the three form fields of an
inbound provider notification. -/
structure RedsysCallbackData where
  ds_signature_version : String
  ds_merchant_parameters : String
  ds_signature : String
deriving DecidableEq

/-- The decoded `Ds_*` response parameters (`RedsysResponseParameters`);
fields no claim mentions elided. -/
structure RedsysResponseParameters where
  ds_order : String
  ds_response : Option String
  ds_transaction_id : Option String
deriving DecidableEq

/-- The external `python-redsys` `RedirectClient`, abstracted over its secret
key: `expected_signature params` is the (deterministic) HMAC signature the
library computes for an encoded parameter blob — `client.create_response`
raises unless the received signature equals it — and `decode_parameters`
is the base64/JSON decoding, `none` when the blob is malformed. -/
structure RedsysClient where
  expected_signature : String → String
  decode_parameters : String → Option RedsysResponseParameters

/-- The exceptions raised while processing a callback
(`RedsysPaymentService.process_callback` and helpers). -/
inductive CallbackError where
  | invalidSignature
  | malformedParameters
  | transactionNotFound (ds_order : String)
  | paymentNotFound (transaction_id : String)
deriving DecidableEq

/-- Source `RedsysPaymentService._validate_and_decode_response`: have the client
verify the signature over the encoded parameters (raising on mismatch), then
decode the parameters.  Both failure modes surface as the same `ValueError`;
the constructors record which step failed. -/
def validate_and_decode_response (client : RedsysClient)
    (cb : RedsysCallbackData) : Except CallbackError RedsysResponseParameters :=
  if cb.ds_signature ≠ client.expected_signature cb.ds_merchant_parameters then
    .error .invalidSignature
  else
    match client.decode_parameters cb.ds_merchant_parameters with
    | none => .error .malformedParameters
    | some rp => .ok rp

/-- Source `RedsysPaymentService._update_payment_status`: on an approved transaction,
complete the payment, confirm/capture the order, reduce stock for every order
item (each failure logged, never fatal), and—iff the signature was verified—
attempt the success-notification dispatch; on a non-approved transaction,
fail the payment and cancel the order.  `payment` and `order` are the rows
found by the caller; the mutations are applied to the first row with the same
id, which is that row. -/
def update_payment_status (db : Db) (payment : Payment)
    (tx : RedsysTransaction) (signature_valid : Bool) : Db :=
  if tx.is_approved then
    let db1 : Db :=
      { db with
        payments :=
          updateFirst (fun p => p.id == payment.id)
            (fun p => { p with status := "completed",
                               provider_transaction_id := tx.response_ds_transaction_id })
            db.payments }
    match findOrder db1 payment.order_id with
    | none => db1
    | some order =>
      let db2 : Db :=
        { db1 with
          orders :=
            updateFirst (fun o => o.id == order.id)
              (fun o => { o with payment_status := "captured",
                                 status := "confirmed",
                                 payment_reference := tx.response_ds_transaction_id })
              db1.orders }
      let db3 : Db :=
        (orderItemsOf db2 order.id).foldl
          (fun d it => (reduce_stock d it.product_id it.size it.quantity).2) db2
      if signature_valid && tx.signature_verified then
        { db3 with notificationLog := db3.notificationLog ++ [order.id] }
      else db3
  else
    let db1 : Db :=
      { db with
        payments :=
          updateFirst (fun p => p.id == payment.id)
            (fun p => { p with status := "failed" }) db.payments }
    match findOrder db1 payment.order_id with
    | none => db1
    | some order =>
      { db1 with
        orders :=
          updateFirst (fun o => o.id == order.id)
            (fun o => { o with payment_status := "failed",
                               status := "cancelled" }) db1.orders }

/-- The dictionary `process_callback` returns on success (the echoed
`payment_status` and `redsys_response` entries, readable off the updated
rows, are elided). -/
structure CallbackResult where
  payment_id : String
  order_id : String
  approved : Bool
deriving DecidableEq

/-- Source `RedsysPaymentService.process_callback` for a service initialized with a
provider client (`self.client` set, the production configuration; the
library-missing mock fallback performs no signature check and is test-only):
verify and decode the callback — before any database access — then locate the
transaction by `ds_order` and its payment, persist the response fields with
`signature_verified := True`, run `_update_payment_status`, and commit.
Every raised error rolls the transaction back, leaving the state unchanged. -/
def process_callback (client : RedsysClient) (cb : RedsysCallbackData)
    (db : Db) : Db × Except CallbackError CallbackResult :=
  match validate_and_decode_response client cb with
  | .error e => (db, .error e)
  | .ok rp =>
    let signature_valid := true
    match findTransaction db rp.ds_order with
    | none => (db, .error (.transactionNotFound rp.ds_order))
    | some tx0 =>
      match findPayment db tx0.payment_id with
      | none => (db, .error (.paymentNotFound tx0.id))
      | some payment =>
        let tx1 : RedsysTransaction :=
          { tx0 with response_ds_order := some rp.ds_order,
                     response_ds_response := rp.ds_response,
                     response_ds_transaction_id := rp.ds_transaction_id,
                     response_ds_merchant_parameters := some cb.ds_merchant_parameters,
                     response_ds_signature := some cb.ds_signature,
                     signature_verified := signature_valid }
        let db1 : Db :=
          { db with
            redsysTransactions :=
              updateFirst (fun t => t.ds_order == rp.ds_order)
                (fun _ => tx1) db.redsysTransactions }
        let db2 := update_payment_status db1 payment tx1 signature_valid
        (db2, .ok { payment_id := payment.id, order_id := payment.order_id,
                    approved := tx1.is_approved })

/-- The decimal digit character for `d < 10`. -/
def decDigit (d : Nat) : Char := Char.ofNat (48 + d % 10)

/-- Fuel-driven digit expansion (structural recursion so that concrete values
reduce in the kernel); `natDigits` supplies enough fuel. -/
def natDigitsAux (fuel : Nat) (n : Nat) : List Char :=
  match fuel with
  | 0 => []
  | fuel + 1 =>
    if n < 10 then [decDigit n]
    else natDigitsAux fuel (n / 10) ++ [decDigit (n % 10)]

/-- The decimal digits of a natural number, most significant first
(the characters of Python `str(n)` for `n ≥ 0`). -/
def natDigits (n : Nat) : List Char := natDigitsAux (n + 1) n

/-- Python `str` of an `int`: a minus sign followed by the digits for
negatives, the digits otherwise. -/
def pyStrInt (n : Int) : String :=
  if n < 0 then String.mk ('-' :: natDigits (-n).toNat)
  else String.mk (natDigits n.toNat)

/-- Python `s[-2:]`: the last `min 2 (len s)` characters. -/
def pyLast2 (s : String) : String :=
  String.mk (s.data.drop (s.data.length - 2))

/-- A `datetime.now()` value, reduced to the components
`strftime("%y%m%d%H%M")` reads. -/
structure PyTimestamp where
  year : Nat
  month : Nat
  day : Nat
  hour : Nat
  minute : Nat
deriving DecidableEq

/-- A number zero-padded to (at least) two digits, as `strftime` renders each
`%y %m %d %H %M` component. -/
def pad2 (n : Nat) : String :=
  if n < 10 then String.mk ('0' :: natDigits n) else String.mk (natDigits n)

/-- Python `datetime.now().strftime("%y%m%d%H%M")`. -/
def strftime_yymdhm (t : PyTimestamp) : String :=
  pad2 (t.year % 100) ++ pad2 t.month ++ pad2 t.day ++ pad2 t.hour ++ pad2 t.minute

/-- Source `RedsysPaymentService._generate_ds_order`: the 10-character timestamp
concatenated with `str(hash(payment_id))[-2:]`.  The Python string hash is an
arbitrary (seed-dependent) machine integer; it is passed here as the
`payment_id_hash` argument. -/
def generate_ds_order (t : PyTimestamp) (payment_id_hash : Int) : String :=
  strftime_yymdhm t ++ pyLast2 (pyStrInt payment_id_hash)

/-! ### Concrete fixtures

Small database states and requests used to instantiate the theorems below on
concrete inputs. -/

def emptyDb : Db :=
  { products := [], productSizes := [], discountCodes := [], orders := [],
    orderItems := [], payments := [], redsysTransactions := [],
    notificationLog := [] }

def glove : Product :=
  { id := "p1", name := "Speed Glove", price := 50, discount_price := none }

def sizeRow : ProductSize :=
  { product_id := "p1", size := "7", stock_quantity := 5, is_available := true }

def orderRow : Order :=
  { id := "o1", status := "pending", payment_status := "pending",
    subtotal := 50, tax_amount := 0, shipping_amount := 3, discount_amount := 0,
    total_amount := 53, payment_reference := none, customer_email := "gk@club.example" }

def itemRow : OrderItem :=
  { order_id := "o1", product_id := "p1", size := "7", quantity := 1,
    unit_price := 50, total_price := 50 }

def paymentRow : Payment :=
  { id := "pay1", order_id := "o1", status := "pending", amount := 53,
    provider_transaction_id := none }

def txRow : RedsysTransaction :=
  { id := "tx1", payment_id := "pay1", ds_order := "DSORD1",
    response_ds_order := none, response_ds_response := none,
    response_ds_transaction_id := none, response_ds_merchant_parameters := none,
    response_ds_signature := none, signature_verified := false }

/-- A database holding one pending order (one line item), its pending payment
and provider transaction, and the stock row the item draws from. -/
def baseDb : Db :=
  { products := [glove], productSizes := [sizeRow], discountCodes := [],
    orders := [orderRow], orderItems := [itemRow], payments := [paymentRow],
    redsysTransactions := [txRow], notificationLog := [] }

/-- A provider client whose correct signature for any blob is `"SIG"` and
which decodes the blob `"PARAMS"` to an approved (`"0000"`) response for
`DSORD1`. -/
def okClient : RedsysClient :=
  { expected_signature := fun _ => "SIG",
    decode_parameters := fun s =>
      if s = "PARAMS" then
        some { ds_order := "DSORD1", ds_response := some "0000",
               ds_transaction_id := some "TID1" }
      else none }

def approvedCb : RedsysCallbackData :=
  { ds_signature_version := "HMAC_SHA256_V1", ds_merchant_parameters := "PARAMS",
    ds_signature := "SIG" }

def tamperedCb : RedsysCallbackData :=
  { ds_signature_version := "HMAC_SHA256_V1", ds_merchant_parameters := "PARAMS",
    ds_signature := "EVIL" }

/-- State after processing the approved callback once. -/
def replayDb1 : Db := (process_callback okClient approvedCb baseDb).1

/-- State after processing the identical approved callback a second time. -/
def replayDb2 : Db := (process_callback okClient approvedCb replayDb1).1

/-- A transaction carrying the verified response code `"0101"` (card blocked). -/
def deniedTx : RedsysTransaction :=
  { id := "tx1", payment_id := "pay1", ds_order := "DSORD1",
    response_ds_order := some "DSORD1", response_ds_response := some "0101",
    response_ds_transaction_id := none, response_ds_merchant_parameters := none,
    response_ds_signature := none, signature_verified := true }

def orderEnv0 : OrderEnv :=
  { now := 0, newOrderId := "o-new", persistOk := true, paymentInitOk := false,
    newPaymentId := "pay-new", newDsOrder := "2510121345ZZ",
    redirectUrl := "http://localhost:3000/payment/process" }

/-- A percentage code: 10%, minimum order 20, cap 15, window [0, 1000],
100 uses allowed, 3 used. -/
def save10 : DiscountCode :=
  { code := "SAVE10", discount_type := "percentage", discount_value := 10,
    min_order_amount := 20, max_discount_amount := some 15, is_active := true,
    start_date := some 0, end_date := some 1000, max_uses := some 100,
    current_uses := 3 }

def catalogDb : Db :=
  { products := [glove], productSizes := [sizeRow], discountCodes := [save10],
    orders := [], orderItems := [], payments := [], redsysTransactions := [],
    notificationLog := [] }

/-- A line item whose submitted price (47) deviates from the authoritative
price (50) by more than the 0.01 tolerance. -/
def tamperedItemReq : OrderItemRequest :=
  { product_id := "p1", product_name := "Speed Glove", product_price := 47,
    quantity := 1, selected_size := some "7" }

def tamperedReq : CreateOrderRequest :=
  { items := [tamperedItemReq], promo_code := none,
    shipping_email := "gk@club.example" }

/-- An honest line item for `glove` (price matches exactly). -/
def honestItemReq : OrderItemRequest :=
  { product_id := "p1", product_name := "Speed Glove", product_price := 50,
    quantity := 1, selected_size := some "7" }

/-- An order for one glove carrying an unknown promo code. -/
def badCodeReq : CreateOrderRequest :=
  { items := [honestItemReq], promo_code := some "NOPE",
    shipping_email := "gk@club.example" }

/-- An order for one glove carrying the valid promo code `SAVE10`
(subtotal 50 ≥ the minimum 20). -/
def promoReq : CreateOrderRequest :=
  { items := [honestItemReq], promo_code := some "SAVE10",
    shipping_email := "gk@club.example" }

/-- An order request with an empty items list. -/
def emptyReq : CreateOrderRequest :=
  { items := [], promo_code := none, shipping_email := "gk@club.example" }

def failPersistEnv : OrderEnv := { orderEnv0 with persistOk := false }

/-- A product whose (float) price has a sub-cent digit: 10.016. -/
def cornerProduct : Product :=
  { id := "p2", name := "Corner Glove", price := 1252/125, discount_price := none }

/-- A fixed-amount code of 20 with no minimum and no cap. -/
def cut20 : DiscountCode :=
  { code := "CUT20", discount_type := "fixed", discount_value := 20,
    min_order_amount := 0, max_discount_amount := none, is_active := true,
    start_date := none, end_date := none, max_uses := none, current_uses := 0 }

def cornerDb : Db :=
  { products := [cornerProduct], productSizes := [], discountCodes := [cut20],
    orders := [], orderItems := [], payments := [], redsysTransactions := [],
    notificationLog := [] }

/-- A request for one `cornerProduct` submitting the displayed price 10.02
(within the 0.01 tolerance of the stored 10.016). -/
def cornerReq : OrderItemRequest :=
  { product_id := "p2", product_name := "Corner Glove", product_price := 501/50,
    quantity := 1, selected_size := none }

/-- The validated items `_validate_order_items` produces for `cornerReq`. -/
def cornerValidated : List ValidatedItem :=
  match validate_order_items cornerDb [cornerReq] with
  | .ok v => v
  | .error _ => []

/-- Two gloves at 50 each: a validated line with quantity 2. -/
def twoGloves : ValidatedItem :=
  { product := glove, quantity := 2, selected_size := some "7",
    unit_price := 50, line_total := 100 }

def pricingDb : Db :=
  { products := [glove], productSizes := [], discountCodes := [save10],
    orders := [], orderItems := [], payments := [], redsysTransactions := [],
    notificationLog := [] }

/-- The validated items `_validate_order_items` produces for `honestItemReq`
against the catalog. -/
def honestValidated : List ValidatedItem :=
  match validate_order_items catalogDb [honestItemReq] with
  | .ok v => v
  | .error _ => []

/-! ### Helper lemmas -/

theorem length_mk (l : List Char) : (String.mk l).length = l.length := rfl

theorem find?_updateFirst {α : Type} (p : α → Bool) (f : α → α) (l : List α)
    (x : α) (hx : l.find? p = some x) (hf : p (f x) = true) :
    (updateFirst p f l).find? p = some (f x) := by
  induction l with
  | nil => simp [List.find?] at hx
  | cons a t ih =>
    by_cases hp : p a = true
    · rw [List.find?_cons_of_pos _ hp] at hx
      injection hx with hx
      subst hx
      rw [updateFirst, if_pos hp]
      exact List.find?_cons_of_pos _ hf
    · have hp' : ¬ (p a = true) := hp
      rw [List.find?_cons_of_neg _ hp'] at hx
      rw [updateFirst, if_neg hp']
      rw [List.find?_cons_of_neg _ hp']
      exact ih hx

theorem le_rndHalfEven (q : ℚ) : ⌊q⌋ ≤ rndHalfEven q := by
  simp only [rndHalfEven]
  split_ifs <;> omega

theorem rndHalfEven_le (q : ℚ) : (rndHalfEven q : ℚ) ≤ q + 1/2 := by
  have h1 : (⌊q⌋ : ℚ) ≤ q := Int.floor_le q
  simp only [rndHalfEven]
  split_ifs with ha hb hc <;> push_cast <;> linarith

theorem rndHalfEven_nonneg (q : ℚ) (h : 0 ≤ q) : 0 ≤ rndHalfEven q := by
  have h1 : (0 : ℤ) ≤ ⌊q⌋ := Int.floor_nonneg.mpr h
  have h2 := le_rndHalfEven q
  omega

theorem pyRound2_nonneg (q : ℚ) (h : 0 ≤ q) : 0 ≤ pyRound2 q := by
  have := rndHalfEven_nonneg (q * 100) (by positivity)
  unfold pyRound2
  positivity

theorem pyRound2_le (q : ℚ) : pyRound2 q ≤ q + 1/200 := by
  have := rndHalfEven_le (q * 100)
  unfold pyRound2
  linarith

theorem quantizeHalfUp2_cents (k : ℤ) (hk : 0 ≤ k) :
    quantizeHalfUp2 ((k : ℚ)/100) = (k : ℚ)/100 := by
  unfold quantizeHalfUp2
  rw [if_pos (by positivity)]
  have h1 : (k : ℚ)/100 * 100 + 1/2 = (k : ℚ) + 1/2 := by ring
  rw [h1]
  have h2 : ⌊(k : ℚ) + 1/2⌋ = k + ⌊(1/2 : ℚ)⌋ := Int.floor_int_add k (1/2)
  have h3 : ⌊(1/2 : ℚ)⌋ = 0 := by norm_num [Int.floor_eq_zero_iff]
  rw [h2, h3]
  push_cast
  ring

theorem decDigit_isDigit (d : Nat) : (decDigit d).isDigit = true := by
  have h : d % 10 < 10 := Nat.mod_lt _ (by norm_num)
  unfold decDigit
  have h10 : d % 10 = 0 ∨ d % 10 = 1 ∨ d % 10 = 2 ∨ d % 10 = 3 ∨ d % 10 = 4 ∨
      d % 10 = 5 ∨ d % 10 = 6 ∨ d % 10 = 7 ∨ d % 10 = 8 ∨ d % 10 = 9 := by omega
  rcases h10 with h' | h' | h' | h' | h' | h' | h' | h' | h' | h' <;> rw [h'] <;> decide

theorem natDigitsAux_digits (fuel : Nat) : ∀ (n : Nat), ∀ c ∈ natDigitsAux fuel n,
    c.isDigit = true := by
  induction fuel with
  | zero => intro n c hc; simp [natDigitsAux] at hc
  | succ fuel ih =>
    intro n c hc
    rw [natDigitsAux] at hc
    split at hc
    · simp only [List.mem_singleton] at hc
      subst hc
      exact decDigit_isDigit _
    · rw [List.mem_append] at hc
      rcases hc with h | h
      · exact ih _ c h
      · simp only [List.mem_singleton] at h
        subst h
        exact decDigit_isDigit _

theorem natDigits_digits (n : Nat) : ∀ c ∈ natDigits n, c.isDigit = true :=
  natDigitsAux_digits _ _

theorem natDigitsAux_small (fuel n : Nat) (hf : 0 < fuel) (h : n < 10) :
    natDigitsAux fuel n = [decDigit n] := by
  cases fuel with
  | zero => omega
  | succ fuel => simp [natDigitsAux, h]

theorem one_le_length_natDigitsAux (fuel n : Nat) (hf : 0 < fuel) :
    1 ≤ (natDigitsAux fuel n).length := by
  cases fuel with
  | zero => omega
  | succ fuel =>
    rw [natDigitsAux]
    split
    · simp
    · simp

theorem natDigits_length_of_small (n : Nat) (h : n < 10) :
    natDigits n = [decDigit n] :=
  natDigitsAux_small _ _ (by omega) h

theorem two_le_length_natDigits (n : Nat) (h : 10 ≤ n) :
    2 ≤ (natDigits n).length := by
  unfold natDigits
  rw [natDigitsAux, if_neg (by omega)]
  have h1 := one_le_length_natDigitsAux n (n / 10) (by omega)
  simp only [List.length_append, List.length_singleton]
  omega

theorem natDigits_length_two_digit (n : Nat) (h1 : 10 ≤ n) (h2 : n < 100) :
    (natDigits n).length = 2 := by
  unfold natDigits
  rw [natDigitsAux, if_neg (by omega)]
  rw [natDigitsAux_small n (n / 10) (by omega) (by omega)]
  simp

theorem pad2_length (n : Nat) (h : n < 100) : (pad2 n).length = 2 := by
  unfold pad2
  split_ifs with h10
  · rw [natDigits_length_of_small n h10]
    rfl
  · rw [length_mk, natDigits_length_two_digit n (by omega) h]

theorem pad2_digits (n : Nat) : ∀ c ∈ (pad2 n).data, c.isDigit = true := by
  unfold pad2
  split_ifs with h10 <;> intro c hc
  · change c ∈ '0' :: natDigits n at hc
    rw [List.mem_cons] at hc
    rcases hc with hc | hc
    · subst hc; decide
    · exact natDigits_digits n c hc
  · exact natDigits_digits n c hc

theorem pyStrInt_digits_of_nonneg (n : Int) (h : 0 ≤ n) :
    ∀ c ∈ (pyStrInt n).data, c.isDigit = true := by
  unfold pyStrInt
  rw [if_neg (by omega)]
  intro c hc
  exact natDigits_digits _ c hc

theorem pyStrInt_chars (n : Int) :
    ∀ c ∈ (pyStrInt n).data, c.isDigit = true ∨ c = '-' := by
  unfold pyStrInt
  split_ifs with hn <;> intro c hc
  · change c ∈ '-' :: natDigits (-n).toNat at hc
    rw [List.mem_cons] at hc
    rcases hc with hc | hc
    · right; exact hc
    · left; exact natDigits_digits _ c hc
  · left; exact natDigits_digits _ c hc

theorem pyLast2_subset (s : String) : ∀ c ∈ (pyLast2 s).data, c ∈ s.data := by
  unfold pyLast2
  intro c hc
  exact List.mem_of_mem_drop hc

theorem pyLast2_length_le (s : String) : (pyLast2 s).length ≤ 2 := by
  unfold pyLast2
  rw [length_mk, List.length_drop]
  omega

theorem pyLast2_pyStrInt_digits (n : Int) (h : n ≤ -10) :
    ∀ c ∈ (pyLast2 (pyStrInt n)).data, c.isDigit = true := by
  have h10 : 10 ≤ (-n).toNat := by omega
  have hlen : 2 ≤ (natDigits (-n).toNat).length := two_le_length_natDigits _ h10
  unfold pyStrInt
  rw [if_pos (by omega)]
  unfold pyLast2
  intro c hc
  change c ∈ ((('-' :: natDigits (-n).toNat).drop
      (('-' :: natDigits (-n).toNat).length - 2))) at hc
  rw [List.length_cons] at hc
  have hL : (natDigits (-n).toNat).length + 1 - 2 =
      ((natDigits (-n).toNat).length - 2) + 1 := by omega
  rw [hL, List.drop_succ_cons] at hc
  exact natDigits_digits _ c (List.mem_of_mem_drop hc)

theorem strftime_length (t : PyTimestamp) (hm : t.month < 100) (hd : t.day < 100)
    (hh : t.hour < 100) (hmin : t.minute < 100) :
    (strftime_yymdhm t).length = 10 := by
  unfold strftime_yymdhm
  rw [String.length_append, String.length_append, String.length_append,
      String.length_append]
  rw [pad2_length _ (Nat.mod_lt _ (by norm_num)), pad2_length _ hm,
      pad2_length _ hd, pad2_length _ hh, pad2_length _ hmin]

theorem strftime_digits (t : PyTimestamp) :
    ∀ c ∈ (strftime_yymdhm t).data, c.isDigit = true := by
  unfold strftime_yymdhm
  intro c hc
  simp only [String.data_append, List.mem_append] at hc
  rcases hc with ((((hc | hc) | hc) | hc) | hc) <;> exact pad2_digits _ c hc

theorem isAlphanum_of_isDigit (c : Char) (h : c.isDigit = true) :
    c.isAlphanum = true := by
  simp [Char.isAlphanum, h]

/-! ### Claim theorems -/

/-- C8 counterexample: for the timestamp 2025-10-12 13:45 and a payment-id
hash of -5 (a value in the codomain of the Python string hash), the generated
provider order reference is `"2510121345-5"`, which contains the
non-alphanumeric character `-`; so the reference does not always consist only
of alphanumeric characters. -/
theorem c8_counterexample :
    ¬ (∀ c ∈ (generate_ds_order ⟨25, 10, 12, 13, 45⟩ (-5)).data,
        c.isAlphanum = true) := by
  decide

/-- C8 (amended): for every timestamp with in-range components and every
payment-id hash, `_generate_ds_order` returns a reference of length at most
12, built from the 10-character digit timestamp plus a suffix of at most 2
characters, all characters being digits or a minus sign; the reference is
fully alphanumeric whenever the hash is outside `[-9, -1]` (the decimal
rendering of a small negative hash contributes its minus sign to the
suffix). -/
theorem c8_ds_order (t : PyTimestamp) (h : Int)
    (hm : t.month < 100) (hd : t.day < 100) (hh : t.hour < 100)
    (hmin : t.minute < 100) :
    (generate_ds_order t h).length ≤ 12 ∧
    (strftime_yymdhm t).length = 10 ∧
    (∀ c ∈ (generate_ds_order t h).data, c.isDigit = true ∨ c = '-') ∧
    ((0 ≤ h ∨ h ≤ -10) →
      ∀ c ∈ (generate_ds_order t h).data, c.isAlphanum = true) := by
  have hts := strftime_length t hm hd hh hmin
  refine ⟨?_, hts, ?_, ?_⟩
  · unfold generate_ds_order
    rw [String.length_append, hts]
    have := pyLast2_length_le (pyStrInt h)
    omega
  · intro c hc
    unfold generate_ds_order at hc
    rw [String.data_append, List.mem_append] at hc
    rcases hc with hc | hc
    · exact Or.inl (strftime_digits t c hc)
    · exact pyStrInt_chars h c (pyLast2_subset _ c hc)
  · intro hcase c hc
    unfold generate_ds_order at hc
    rw [String.data_append, List.mem_append] at hc
    rcases hc with hc | hc
    · exact isAlphanum_of_isDigit c (strftime_digits t c hc)
    · rcases hcase with hpos | hneg
      · exact isAlphanum_of_isDigit c
          (pyStrInt_digits_of_nonneg h hpos c (pyLast2_subset _ c hc))
      · exact isAlphanum_of_isDigit c (pyLast2_pyStrInt_digits h hneg c hc)

/-- C8 witness: the amended statement instantiated at the timestamp
2025-10-12 13:45 and the hash 987654. -/
theorem c8_witness :
    (generate_ds_order ⟨25, 10, 12, 13, 45⟩ 987654).length ≤ 12 ∧
    (strftime_yymdhm ⟨25, 10, 12, 13, 45⟩).length = 10 ∧
    (∀ c ∈ (generate_ds_order ⟨25, 10, 12, 13, 45⟩ 987654).data,
      c.isDigit = true ∨ c = '-') ∧
    ((0 ≤ (987654 : Int) ∨ (987654 : Int) ≤ -10) →
      ∀ c ∈ (generate_ds_order ⟨25, 10, 12, 13, 45⟩ 987654).data,
        c.isAlphanum = true) :=
  c8_ds_order ⟨25, 10, 12, 13, 45⟩ 987654 (by decide) (by decide) (by decide)
    (by decide)

/-- C1: a callback whose signature does not verify against the encoded
parameters makes `process_callback` raise inside signature validation, which
runs before any database lookup or write: the state comes back unchanged
(rolled back) and the result is the signature error, regardless of the
response code embedded in the parameters. -/
theorem c1_signature_gate (client : RedsysClient) (cb : RedsysCallbackData)
    (db : Db)
    (h : cb.ds_signature ≠ client.expected_signature cb.ds_merchant_parameters) :
    process_callback client cb db = (db, .error .invalidSignature) := by
  unfold process_callback validate_and_decode_response
  rw [if_pos h]

/-- C1 witness: the tampered callback (signature `"EVIL"` where the correct
one is `"SIG"`), whose embedded response code is the approved `"0000"`,
leaves the populated database untouched. -/
theorem c1_witness :
    process_callback okClient tamperedCb baseDb =
      (baseDb, .error .invalidSignature) :=
  c1_signature_gate okClient tamperedCb baseDb (by decide)

theorem validate_order_items_error_of_price_dev (db : Db) :
    ∀ (items : List OrderItemRequest) (item : OrderItemRequest)
      (product : Product), item ∈ items →
      findProduct db item.product_id = some product →
      1/100 < |product.get_current_price - item.product_price| →
      ∃ e, validate_order_items db items = .error e := by
  intro items
  induction items with
  | nil => intro item product hmem; cases hmem
  | cons a t ih =>
    intro item product hmem hfind hdev
    rcases List.mem_cons.mp hmem with heq | hmem'
    · subst heq
      simp only [validate_order_items, hfind]
      rw [if_pos hdev]
      exact ⟨_, rfl⟩
    · rcases hfa : findProduct db a.product_id with _ | pa
      · simp only [validate_order_items, hfa]
        exact ⟨_, rfl⟩
      · simp only [validate_order_items, hfa]
        by_cases h1 : 1/100 < |pa.get_current_price - a.product_price|
        · rw [if_pos h1]; exact ⟨_, rfl⟩
        · rw [if_neg h1]
          by_cases h2 : pyStrip (pyLower pa.name) ≠ pyStrip (pyLower a.product_name)
          · rw [if_pos h2]; exact ⟨_, rfl⟩
          · rw [if_neg h2]
            by_cases h3 : a.quantity ≤ 0 ∨ 99 < a.quantity
            · rw [if_pos h3]; exact ⟨_, rfl⟩
            · rw [if_neg h3]
              obtain ⟨e, he⟩ := ih item product hmem' hfind hdev
              rw [he]
              exact ⟨e, rfl⟩

theorem validate_order_items_price_mismatch (db : Db) :
    ∀ (items : List OrderItemRequest),
      (∀ it ∈ items, ∃ q, findProduct db it.product_id = some q ∧
        pyStrip (pyLower q.name) = pyStrip (pyLower it.product_name) ∧
        0 < it.quantity ∧ it.quantity ≤ 99) →
      ∀ (item : OrderItemRequest) (product : Product), item ∈ items →
      findProduct db item.product_id = some product →
      1/100 < |product.get_current_price - item.product_price| →
      ∃ pid expected received, validate_order_items db items =
        .error (.priceMismatch pid expected received) := by
  intro items
  induction items with
  | nil => intro _ item product hmem; cases hmem
  | cons a t ih =>
    intro hall item product hmem hfind hdev
    obtain ⟨qa, hqa, hname, hq1, hq2⟩ := hall a (List.mem_cons_self a t)
    simp only [validate_order_items, hqa]
    by_cases h1 : 1/100 < |qa.get_current_price - a.product_price|
    · rw [if_pos h1]; exact ⟨_, _, _, rfl⟩
    · rw [if_neg h1]
      rw [if_neg (fun hne => hne hname)]
      rw [if_neg (by omega)]
      rcases List.mem_cons.mp hmem with heq | hmem'
      · subst heq
        rw [hfind] at hqa
        injection hqa with hh
        subst hh
        exact absurd hdev h1
      · obtain ⟨pid, expected, received, he⟩ :=
          ih (fun it hit => hall it (List.mem_cons_of_mem a hit))
            item product hmem' hfind hdev
        rw [he]
        exact ⟨pid, expected, received, rfl⟩

/-- C2: an order request containing an item whose submitted price deviates
from the authoritative current price (discount price if set, else base price)
by more than 0.01 makes `validate_and_create_order` fail with no Order or
OrderItem write (validation aborts before any persistence, so the state comes
back unchanged); when every item passes the product/name/quantity checks, the
error is specifically the price-mismatch error. -/
theorem c2_price_integrity (env : OrderEnv) (db : Db)
    (req : CreateOrderRequest) (item : OrderItemRequest) (product : Product)
    (hmem : item ∈ req.items)
    (hfind : findProduct db item.product_id = some product)
    (hdev : 1/100 < |product.get_current_price - item.product_price|) :
    (∃ e, validate_and_create_order env db req = (db, .error e)) ∧
    ((∀ it ∈ req.items, ∃ q, findProduct db it.product_id = some q ∧
        pyStrip (pyLower q.name) = pyStrip (pyLower it.product_name) ∧
        0 < it.quantity ∧ it.quantity ≤ 99) →
      ∃ pid expected received, validate_and_create_order env db req =
        (db, .error (.priceMismatch pid expected received))) := by
  constructor
  · obtain ⟨e, he⟩ :=
      validate_order_items_error_of_price_dev db req.items item product hmem
        hfind hdev
    refine ⟨e, ?_⟩
    unfold validate_and_create_order
    rw [he]
  · intro hall
    obtain ⟨pid, expected, received, he⟩ :=
      validate_order_items_price_mismatch db req.items hall item product hmem
        hfind hdev
    refine ⟨pid, expected, received, ?_⟩
    unfold validate_and_create_order
    rw [he]

/-- C2 witness: submitting 47 for the 50-priced glove (deviation 3) makes the
order fail with the price-mismatch error and leaves the catalog database
unchanged. -/
theorem c2_witness :
    ∃ pid expected received,
      validate_and_create_order orderEnv0 catalogDb tamperedReq =
        (catalogDb, .error (.priceMismatch pid expected received)) :=
  (c2_price_integrity orderEnv0 catalogDb tamperedReq tamperedItemReq glove
    (by decide) (by decide) (by decide)).2
    (by
      intro it hit
      have heq : it = tamperedItemReq := by
        simpa [tamperedReq] using hit
      subst heq
      exact ⟨glove, by decide, by decide, by decide, by decide⟩)

theorem calculate_discount_spec (dc : DiscountCode) (now : Int) (amount : ℚ)
    (h0 : 0 ≤ amount) (hv : 0 < dc.discount_value)
    (hc : ∀ c, dc.max_discount_amount = some c → 0 < c) :
    ∃ m : ℤ, dc.calculate_discount now amount = (m : ℚ)/100 ∧ 0 ≤ m ∧
      (m : ℚ) ≤ amount * 100 + 1/2 := by
  have hd0nn : 0 ≤ dc.base_discount amount := by
    unfold DiscountCode.base_discount
    split_ifs
    · positivity
    · linarith
  have hd1nn : 0 ≤ dc.cap_discount (dc.base_discount amount) := by
    unfold DiscountCode.cap_discount
    rcases hmd : dc.max_discount_amount with _ | c
    · exact hd0nn
    · have hcpos := hc c hmd
      show 0 ≤ if c ≠ 0 then min (dc.base_discount amount) c
        else dc.base_discount amount
      split_ifs
      · exact le_min hd0nn (le_of_lt hcpos)
      · exact hd0nn
  have hd2nn : 0 ≤ min (dc.cap_discount (dc.base_discount amount)) amount :=
    le_min hd1nn h0
  have hd2le : min (dc.cap_discount (dc.base_discount amount)) amount ≤ amount :=
    min_le_right _ _
  unfold DiscountCode.calculate_discount
  by_cases hval : (dc.is_valid now amount).1 = false
  · rw [if_pos hval]
    refine ⟨0, by norm_num, le_refl 0, ?_⟩
    push_cast
    linarith
  · rw [if_neg hval]
    refine ⟨rndHalfEven
      (min (dc.cap_discount (dc.base_discount amount)) amount * 100), ?_, ?_, ?_⟩
    · rw [pyRound2]
    · exact rndHalfEven_nonneg _ (by positivity)
    · have := rndHalfEven_le
        (min (dc.cap_discount (dc.base_discount amount)) amount * 100)
      linarith

theorem calculate_pricing_subtotal (db : Db) (now : Int)
    (vitems : List ValidatedItem) (promo : Option String) :
    (calculate_pricing db now vitems promo).2.subtotal =
      (vitems.map (fun v => v.line_total)).sum := rfl

theorem calculate_pricing_tax (db : Db) (now : Int)
    (vitems : List ValidatedItem) (promo : Option String) :
    (calculate_pricing db now vitems promo).2.tax_amount = 0 := rfl

theorem calculate_pricing_shipping (db : Db) (now : Int)
    (vitems : List ValidatedItem) (promo : Option String) :
    (calculate_pricing db now vitems promo).2.shipping_cost =
      if free_shipping_threshold ≤ (vitems.map (fun v => v.quantity)).sum then 0
      else standard_shipping_cost := rfl

theorem calculate_pricing_total_eq (db : Db) (now : Int)
    (vitems : List ValidatedItem) (promo : Option String) :
    (calculate_pricing db now vitems promo).2.total =
      (calculate_pricing db now vitems promo).2.subtotal -
      (calculate_pricing db now vitems promo).2.discount_amount +
      (calculate_pricing db now vitems promo).2.tax_amount +
      (calculate_pricing db now vitems promo).2.shipping_cost := rfl

theorem calculate_pricing_discount (db : Db) (now : Int)
    (vitems : List ValidatedItem) (promo : Option String) :
    (calculate_pricing db now vitems promo).2.discount_amount =
      (resolve_discount db now promo
        ((vitems.map (fun v => v.line_total)).sum)).2.1 := rfl

theorem resolve_discount_cases (db : Db) (now : Int) (promo : Option String)
    (S : ℚ) :
    (resolve_discount db now promo S).2.1 = 0 ∨
    ∃ dc ∈ db.discountCodes, (resolve_discount db now promo S).2.1 =
      quantizeHalfUp2 (dc.calculate_discount now S) := by
  rcases promo with _ | pc
  · exact Or.inl rfl
  · by_cases hpc : pc = ""
    · subst hpc
      exact Or.inl rfl
    · rcases hfind : findDiscountCode db (pyStrip pc) with _ | dc
      · have happ : apply_discount_code db now (pyStrip pc) S =
            (db, 0, some "Invalid discount code") := by
          simp only [apply_discount_code, hfind]
        left
        simp only [resolve_discount, if_neg hpc, happ]
      · have hmem : dc ∈ db.discountCodes := List.mem_of_find?_eq_some hfind
        rcases hval : (dc.is_valid now S).1 with _ | _
        · have happ : apply_discount_code db now (pyStrip pc) S =
              (db, 0, some (dc.is_valid now S).2) := by
            simp [apply_discount_code, hfind, hval]
          left
          simp only [resolve_discount, if_neg hpc, happ]
        · have happ : apply_discount_code db now (pyStrip pc) S =
              ({ db with
                 discountCodes :=
                   updateFirst
                     (fun c => pyLower c.code == pyLower (pyStrip (pyStrip pc)))
                     DiscountCode.increment_usage db.discountCodes },
               dc.calculate_discount now S, none) := by
            simp [apply_discount_code, hfind, hval]
          right
          refine ⟨dc, hmem, ?_⟩
          simp only [resolve_discount, if_neg hpc, happ]

/-- C3 counterexample: for the validated single-item list produced from a
product priced 10.016 (a storable float price) with the valid fixed-20 code
`CUT20`, `_calculate_pricing` returns discount 10.02 > subtotal 10.016, so
the discount does not always lie in [0, subtotal]. -/
theorem c3_counterexample :
    ((calculate_pricing cornerDb 0 cornerValidated (some "CUT20")).2).subtotal <
      ((calculate_pricing cornerDb 0 cornerValidated
        (some "CUT20")).2).discount_amount := by
  decide

/-- C3 (amended): for every list of validated items (positive quantities,
nonnegative authoritative unit prices, line totals = price × quantity) over a
database whose discount codes respect the creation-schema constraints
(positive value, positive cap when set), `_calculate_pricing` returns
tax = 0; shipping = 0 when the total quantity reaches 2 and 3.00 when it is
1; a discount with 0 ≤ discount ≤ subtotal + 0.005, where
discount ≤ subtotal whenever the subtotal is a whole number of cents
(rounding the discount to two decimals can overshoot a sub-cent subtotal by
at most half a cent); and total = subtotal - discount + tax + shipping
exactly, in exact decimal arithmetic. -/
theorem c3_pricing (db : Db) (now : Int) (vitems : List ValidatedItem)
    (promo : Option String)
    (hq : ∀ v ∈ vitems, 1 ≤ v.quantity)
    (hp : ∀ v ∈ vitems, 0 ≤ v.unit_price ∧ v.line_total = v.unit_price * v.quantity)
    (hdb : ∀ dc ∈ db.discountCodes, 0 < dc.discount_value ∧
      (∀ c, dc.max_discount_amount = some c → 0 < c)) :
    (calculate_pricing db now vitems promo).2.tax_amount = 0 ∧
    ((2:Int) ≤ (vitems.map (fun v => v.quantity)).sum →
      (calculate_pricing db now vitems promo).2.shipping_cost = 0) ∧
    ((vitems.map (fun v => v.quantity)).sum = 1 →
      (calculate_pricing db now vitems promo).2.shipping_cost = 3) ∧
    0 ≤ (calculate_pricing db now vitems promo).2.discount_amount ∧
    (calculate_pricing db now vitems promo).2.discount_amount ≤
      (calculate_pricing db now vitems promo).2.subtotal + 1/200 ∧
    ((∃ k : ℤ, (calculate_pricing db now vitems promo).2.subtotal = (k : ℚ)/100) →
      (calculate_pricing db now vitems promo).2.discount_amount ≤
        (calculate_pricing db now vitems promo).2.subtotal) ∧
    (calculate_pricing db now vitems promo).2.total =
      (calculate_pricing db now vitems promo).2.subtotal -
      (calculate_pricing db now vitems promo).2.discount_amount +
      (calculate_pricing db now vitems promo).2.tax_amount +
      (calculate_pricing db now vitems promo).2.shipping_cost := by
  have hS : 0 ≤ (vitems.map (fun v => v.line_total)).sum := by
    apply List.sum_nonneg
    intro x hx
    rw [List.mem_map] at hx
    obtain ⟨v, hv, rfl⟩ := hx
    obtain ⟨hup, hlt⟩ := hp v hv
    have hq1 := hq v hv
    rw [hlt]
    have hqq : (0:ℚ) ≤ (v.quantity : ℚ) := by exact_mod_cast le_trans (by omega) hq1
    positivity
  have key : 0 ≤ (resolve_discount db now promo
        ((vitems.map (fun v => v.line_total)).sum)).2.1 ∧
      (resolve_discount db now promo
        ((vitems.map (fun v => v.line_total)).sum)).2.1 ≤
        (vitems.map (fun v => v.line_total)).sum + 1/200 ∧
      ((∃ k : ℤ, (vitems.map (fun v => v.line_total)).sum = (k:ℚ)/100) →
        (resolve_discount db now promo
          ((vitems.map (fun v => v.line_total)).sum)).2.1 ≤
          (vitems.map (fun v => v.line_total)).sum) := by
    rcases resolve_discount_cases db now promo
        ((vitems.map (fun v => v.line_total)).sum) with h0 | ⟨dc, hmem, hd⟩
    · rw [h0]
      exact ⟨le_refl 0, by linarith, fun _ => hS⟩
    · obtain ⟨hvpos, hcap⟩ := hdb dc hmem
      obtain ⟨m, hm, hm0, hmle⟩ :=
        calculate_discount_spec dc now ((vitems.map (fun v => v.line_total)).sum)
          hS hvpos hcap
      rw [hd, hm, quantizeHalfUp2_cents m hm0]
      have hmq : (0:ℚ) ≤ (m:ℚ) := by exact_mod_cast hm0
      refine ⟨by positivity, by linarith, ?_⟩
      rintro ⟨k, hk⟩
      rw [hk] at hmle ⊢
      have hk2 : (m:ℚ) ≤ (k:ℚ) + 1/2 := by
        have hr : (k:ℚ)/100 * 100 = (k:ℚ) := by ring
        linarith [hmle]
      have hmk : m ≤ k := by
        have h2 : (m:ℚ) < (k:ℚ) + 1 := by linarith
        exact_mod_cast Int.lt_add_one_iff.mp (by exact_mod_cast h2)
      have hmkq : (m:ℚ) ≤ (k:ℚ) := by exact_mod_cast hmk
      linarith
  refine ⟨calculate_pricing_tax db now vitems promo, ?_, ?_, ?_, ?_, ?_,
    calculate_pricing_total_eq db now vitems promo⟩
  · intro h2
    rw [calculate_pricing_shipping]
    rw [if_pos (show free_shipping_threshold ≤ _ from h2)]
  · intro h1
    rw [calculate_pricing_shipping]
    rw [if_neg (by rw [h1]; decide)]
    rfl
  · rw [calculate_pricing_discount]
    exact key.1
  · rw [calculate_pricing_discount, calculate_pricing_subtotal]
    exact key.2.1
  · rw [calculate_pricing_discount, calculate_pricing_subtotal]
    exact key.2.2

/-- C3 witness: the amended statement instantiated at two 50-priced gloves
with the valid 10% code `SAVE10` at instant 5: subtotal 100, discount 10,
shipping 0, tax 0, total 90. -/
theorem c3_witness :
    (calculate_pricing pricingDb 5 [twoGloves] (some "SAVE10")).2.tax_amount = 0 ∧
    ((2:Int) ≤ ([twoGloves].map (fun v => v.quantity)).sum →
      (calculate_pricing pricingDb 5 [twoGloves] (some "SAVE10")).2.shipping_cost = 0) ∧
    (([twoGloves].map (fun v => v.quantity)).sum = 1 →
      (calculate_pricing pricingDb 5 [twoGloves] (some "SAVE10")).2.shipping_cost = 3) ∧
    0 ≤ (calculate_pricing pricingDb 5 [twoGloves] (some "SAVE10")).2.discount_amount ∧
    (calculate_pricing pricingDb 5 [twoGloves] (some "SAVE10")).2.discount_amount ≤
      (calculate_pricing pricingDb 5 [twoGloves] (some "SAVE10")).2.subtotal + 1/200 ∧
    ((∃ k : ℤ, (calculate_pricing pricingDb 5 [twoGloves]
        (some "SAVE10")).2.subtotal = (k : ℚ)/100) →
      (calculate_pricing pricingDb 5 [twoGloves] (some "SAVE10")).2.discount_amount ≤
        (calculate_pricing pricingDb 5 [twoGloves] (some "SAVE10")).2.subtotal) ∧
    (calculate_pricing pricingDb 5 [twoGloves] (some "SAVE10")).2.total =
      (calculate_pricing pricingDb 5 [twoGloves] (some "SAVE10")).2.subtotal -
      (calculate_pricing pricingDb 5 [twoGloves] (some "SAVE10")).2.discount_amount +
      (calculate_pricing pricingDb 5 [twoGloves] (some "SAVE10")).2.tax_amount +
      (calculate_pricing pricingDb 5 [twoGloves] (some "SAVE10")).2.shipping_cost :=
  c3_pricing pricingDb 5 [twoGloves] (some "SAVE10")
    (by
      intro v hv
      rw [List.mem_singleton] at hv
      subst hv
      decide)
    (by
      intro v hv
      rw [List.mem_singleton] at hv
      subst hv
      exact ⟨by norm_num [twoGloves], by norm_num [twoGloves]⟩)
    (by
      intro dc hdc
      have hdc1 : dc = save10 := by simpa [pricingDb] using hdc
      subst hdc1
      refine ⟨by norm_num [save10], fun c hc => ?_⟩
      simp only [save10, Option.some_inj] at hc
      subst hc
      norm_num)

theorem update_payment_status_not_approved (db : Db) (payment : Payment)
    (tx : RedsysTransaction) (sv : Bool) (order : Order)
    (happr : tx.is_approved = false)
    (hord : findOrder db payment.order_id = some order) :
    update_payment_status db payment tx sv =
      { db with
        payments := updateFirst (fun p => p.id == payment.id)
          (fun p => { p with status := "failed" }) db.payments,
        orders := updateFirst (fun o => o.id == order.id)
          (fun o => { o with payment_status := "failed", status := "cancelled" })
          db.orders } := by
  unfold update_payment_status
  rw [if_neg (by simp [happr])]
  have hord1 : findOrder { db with
      payments := updateFirst (fun p => p.id == payment.id)
        (fun p => { p with status := "failed" }) db.payments } payment.order_id =
      some order := hord
  simp only [hord1]

/-- C4: a callback drives the success path iff its response code is exactly
the string "0000": `is_approved` holds iff `response_ds_response` equals
`"0000"` (false when absent); and for a transaction with any other verified
code, `_update_payment_status` marks the payment failed, the order
payment-failed and cancelled, touches no stock row, and dispatches no
success notification. -/
theorem c4_response_code_gate :
    (∀ tx : RedsysTransaction, tx.is_approved = true ↔
      tx.response_ds_response = some "0000") ∧
    (∀ (db : Db) (payment : Payment) (tx : RedsysTransaction) (sv : Bool)
      (order : Order),
      tx.is_approved = false →
      findPayment db payment.id = some payment →
      findOrder db payment.order_id = some order →
      findPayment (update_payment_status db payment tx sv) payment.id =
        some { payment with status := "failed" } ∧
      findOrder (update_payment_status db payment tx sv) payment.order_id =
        some { order with payment_status := "failed", status := "cancelled" } ∧
      (update_payment_status db payment tx sv).productSizes = db.productSizes ∧
      (update_payment_status db payment tx sv).notificationLog =
        db.notificationLog) := by
  constructor
  · intro tx
    cases h : tx.response_ds_response with
    | none => simp [RedsysTransaction.is_approved, h]
    | some r => simp [RedsysTransaction.is_approved, h]
  · intro db payment tx sv order happr hpay hord
    rw [update_payment_status_not_approved db payment tx sv order happr hord]
    have hoid : order.id = payment.order_id := by
      have := List.find?_some hord
      simpa using this
    refine ⟨?_, ?_, rfl, rfl⟩
    · exact find?_updateFirst _ _ _ _ hpay (by simp)
    · show List.find? (fun o => o.id == payment.order_id)
        (updateFirst (fun o => o.id == order.id)
          (fun o => { o with payment_status := "failed", status := "cancelled" })
          db.orders) = _
      rw [← hoid]
      rw [← hoid] at hord
      exact find?_updateFirst _ _ _ _ hord (by simp)

/-- C4 witness: the denied transaction (code "0101") over the populated
database: not approved, payment failed, order cancelled, stock and
notification log untouched. -/
theorem c4_witness :
    (deniedTx.is_approved = true ↔ deniedTx.response_ds_response = some "0000") ∧
    findPayment (update_payment_status baseDb paymentRow deniedTx true) "pay1" =
      some { paymentRow with status := "failed" } ∧
    findOrder (update_payment_status baseDb paymentRow deniedTx true) "o1" =
      some { orderRow with payment_status := "failed", status := "cancelled" } ∧
    (update_payment_status baseDb paymentRow deniedTx true).productSizes =
      baseDb.productSizes ∧
    (update_payment_status baseDb paymentRow deniedTx true).notificationLog =
      baseDb.notificationLog := by
  have h := c4_response_code_gate.2 baseDb paymentRow deniedTx true orderRow
    rfl rfl rfl
  exact ⟨c4_response_code_gate.1 deniedTx, h.1, h.2.1, h.2.2.1, h.2.2.2⟩

/-- C5 (code evaluation at the failing input): processing the identical
approved callback twice decrements the item stock twice (5 → 4 → 3) and
dispatches the success notification twice, so replay is not idempotent: the
second processing performs an additional decrement and an additional
dispatch. -/
theorem c5_replay_double_decrement :
    (findProductSize replayDb1 "p1" "7").map (fun ps => ps.stock_quantity) =
      some 4 ∧
    replayDb1.notificationLog = ["o1"] ∧
    (findProductSize replayDb2 "p1" "7").map (fun ps => ps.stock_quantity) =
      some 3 ∧
    replayDb2.notificationLog = ["o1", "o1"] :=
  ⟨rfl, rfl, rfl, rfl⟩

/-- C6: `reduce_stock` is an atomic check-and-decrement that never drives the
stock negative: an absent (product, size) row or insufficient stock yields
`false` with the state unchanged; otherwise the row is decremented by exactly
the requested quantity (the new value is nonnegative), `is_available` is set
to (new quantity > 0), and the call returns `true`. -/
theorem c6_reduce_stock (db : Db) (pid s : String) (qty : Int) :
    (findProductSize db pid s = none → reduce_stock db pid s qty = (false, db)) ∧
    (∀ ps, findProductSize db pid s = some ps →
      (ps.stock_quantity < qty → reduce_stock db pid s qty = (false, db)) ∧
      (qty ≤ ps.stock_quantity →
        (reduce_stock db pid s qty).1 = true ∧
        0 ≤ ps.stock_quantity - qty ∧
        findProductSize (reduce_stock db pid s qty).2 pid s =
          some { ps with stock_quantity := ps.stock_quantity - qty,
                         is_available := decide (0 < ps.stock_quantity - qty) })) := by
  constructor
  · intro h
    simp only [reduce_stock, h]
  · intro ps hps
    constructor
    · intro hlt
      simp only [reduce_stock, hps, if_pos hlt]
    · intro hle
      have hnlt : ¬ ps.stock_quantity < qty := not_lt.mpr hle
      refine ⟨?_, by omega, ?_⟩
      · simp only [reduce_stock, hps, if_neg hnlt]
      · simp only [reduce_stock, hps, if_neg hnlt]
        have hps2 : List.find? (fun q => q.product_id == pid && q.size == s)
            db.productSizes = some ps := hps
        have hp := @List.find?_some _
          (fun q => q.product_id == pid && q.size == s) ps db.productSizes hps2
        exact find?_updateFirst _ _ _ _ hps2 hp

/-- C6 witness: reducing the 5-unit stock row by 2 succeeds and leaves 3
units, available. -/
theorem c6_witness :
    (reduce_stock baseDb "p1" "7" 2).1 = true ∧
    0 ≤ sizeRow.stock_quantity - 2 ∧
    findProductSize (reduce_stock baseDb "p1" "7" 2).2 "p1" "7" =
      some { sizeRow with stock_quantity := sizeRow.stock_quantity - 2,
                          is_available := decide (0 < sizeRow.stock_quantity - 2) } :=
  ((c6_reduce_stock baseDb "p1" "7" 2).2 sizeRow rfl).2 (by decide)

theorem generate_payment_url_discountCodes (env : OrderEnv) (db : Db)
    (oid : String) (t : ℚ) :
    ((generate_payment_url env db oid t).1).discountCodes = db.discountCodes := by
  unfold generate_payment_url
  split_ifs <;> rfl

theorem generate_payment_url_orders (env : OrderEnv) (db : Db)
    (oid : String) (t : ℚ) :
    ((generate_payment_url env db oid t).1).orders = db.orders := by
  unfold generate_payment_url
  split_ifs <;> rfl

theorem generate_payment_url_orderItems (env : OrderEnv) (db : Db)
    (oid : String) (t : ℚ) :
    ((generate_payment_url env db oid t).1).orderItems = db.orderItems := by
  unfold generate_payment_url
  split_ifs <;> rfl

theorem calculate_pricing_db (db : Db) (now : Int)
    (vitems : List ValidatedItem) (promo : Option String) :
    (calculate_pricing db now vitems promo).1 =
      (resolve_discount db now promo
        ((vitems.map (fun v => v.line_total)).sum)).1 := rfl

theorem apply_discount_code_err (db : Db) (now : Int) (code : String) (S : ℚ)
    (h : (apply_discount_code db now code S).2.2 ≠ none) :
    ∃ msg, apply_discount_code db now code S = (db, 0, some msg) := by
  rcases hfind : findDiscountCode db code with _ | dc
  · exact ⟨"Invalid discount code", by simp only [apply_discount_code, hfind]⟩
  · rcases hv : (dc.is_valid now S).1 with _ | _
    · exact ⟨(dc.is_valid now S).2, by simp [apply_discount_code, hfind, hv]⟩
    · exfalso
      apply h
      simp [apply_discount_code, hfind, hv]

theorem resolve_discount_err (db : Db) (now : Int) (pc : String) (S : ℚ)
    (hne : pc ≠ "")
    (hfail : (apply_discount_code db now (pyStrip pc) S).2.2 ≠ none) :
    resolve_discount db now (some pc) S = (db, 0, 0) := by
  obtain ⟨msg, hmsg⟩ := apply_discount_code_err db now (pyStrip pc) S hfail
  simp only [resolve_discount, if_neg hne, hmsg]

/-- C7: an order request carrying a promo code whose application fails
(unknown code, or a code failing validation against the subtotal) still
completes successfully with discount 0, and no discount-code row changes (no
usage counter incremented); the failure never aborts checkout. -/
theorem c7_discount_nonfatal (env : OrderEnv) (db : Db)
    (req : CreateOrderRequest) (pc : String) (vitems : List ValidatedItem)
    (hpc : req.promo_code = some pc) (hne : pc ≠ "")
    (hval : validate_order_items db req.items = .ok vitems)
    (hfail : (apply_discount_code db env.now (pyStrip pc)
      ((vitems.map (fun v => v.line_total)).sum)).2.2 ≠ none)
    (hpersist : env.persistOk = true) :
    (validate_and_create_order env db req).1.discountCodes = db.discountCodes ∧
    ∃ resp, (validate_and_create_order env db req).2 = .ok resp ∧
      resp.discount_amount = 0 := by
  have hres : resolve_discount db env.now req.promo_code
      ((vitems.map (fun v => v.line_total)).sum) = (db, 0, 0) := by
    rw [hpc]
    exact resolve_discount_err db env.now pc _ hne hfail
  constructor
  · unfold validate_and_create_order
    simp only [hval]
    rw [if_neg (by simp [hpersist])]
    rw [generate_payment_url_discountCodes]
    show (calculate_pricing db env.now vitems req.promo_code).1.discountCodes =
      db.discountCodes
    rw [calculate_pricing_db, hres]
  · unfold validate_and_create_order
    simp only [hval]
    rw [if_neg (by simp [hpersist])]
    refine ⟨_, rfl, ?_⟩
    show (calculate_pricing db env.now vitems req.promo_code).2.discount_amount = 0
    rw [calculate_pricing_discount, hres]

/-- C7 witness: ordering one glove with the unknown promo code `NOPE`
succeeds with discount 0 and an unchanged discount-code table. -/
theorem c7_witness :
    (validate_and_create_order orderEnv0 catalogDb badCodeReq).1.discountCodes =
      catalogDb.discountCodes ∧
    ∃ resp, (validate_and_create_order orderEnv0 catalogDb badCodeReq).2 =
      .ok resp ∧ resp.discount_amount = 0 :=
  c7_discount_nonfatal orderEnv0 catalogDb badCodeReq "NOPE" honestValidated
    rfl (by decide) rfl (by decide) rfl

/-- C9: an order request with an empty items list (and no promo code) is not
rejected by `validate_and_create_order`: item validation passes vacuously,
subtotal = 0, discount = 0, tax = 0, shipping = 3.00 (quantity 0 is under the
free-shipping threshold), total = 3.00, and an order row with zero
order-item rows is persisted under the fresh order id. -/
theorem c9_empty_order (env : OrderEnv) (db : Db) (req : CreateOrderRequest)
    (hitems : req.items = []) (hpromo : req.promo_code = none)
    (hpersist : env.persistOk = true)
    (hfresh : findOrder db env.newOrderId = none)
    (hfreshItems : orderItemsOf db env.newOrderId = []) :
    ∃ resp, (validate_and_create_order env db req).2 = .ok resp ∧
      resp.subtotal = 0 ∧ resp.discount_amount = 0 ∧ resp.tax_amount = 0 ∧
      resp.shipping_amount = 3 ∧ resp.total_amount = 3 ∧
      (findOrder (validate_and_create_order env db req).1 env.newOrderId).map
        (fun o => (o.subtotal, o.total_amount)) = some (0, 3) ∧
      orderItemsOf (validate_and_create_order env db req).1 env.newOrderId = [] := by
  have hpr_sub : (calculate_pricing db env.now [] req.promo_code).2.subtotal = 0 := by
    rw [calculate_pricing_subtotal]
    simp
  have hpr_disc :
      (calculate_pricing db env.now [] req.promo_code).2.discount_amount = 0 := by
    rw [calculate_pricing_discount, hpromo]
    rfl
  have hpr_tax := calculate_pricing_tax db env.now [] req.promo_code
  have hpr_ship :
      (calculate_pricing db env.now [] req.promo_code).2.shipping_cost = 3 := by
    rw [calculate_pricing_shipping]
    rw [if_neg (by decide)]
    rfl
  have hpr_total :
      (calculate_pricing db env.now [] req.promo_code).2.total = 3 := by
    rw [calculate_pricing_total_eq, hpr_sub, hpr_disc, hpr_tax, hpr_ship]
    norm_num
  have hpr_db : (calculate_pricing db env.now [] req.promo_code).1 = db := by
    rw [calculate_pricing_db, hpromo]
    rfl
  unfold validate_and_create_order
  rw [hitems]
  simp only [validate_order_items]
  rw [if_neg (by simp [hpersist])]
  refine ⟨_, rfl, hpr_sub, hpr_disc, hpr_tax, hpr_ship, hpr_total, ?_, ?_⟩
  · show (findOrder (generate_payment_url env _ env.newOrderId _).1
        env.newOrderId).map (fun o => (o.subtotal, o.total_amount)) = some (0, 3)
    unfold findOrder
    rw [generate_payment_url_orders]
    show (List.find? (fun o => o.id == env.newOrderId)
      (((calculate_pricing db env.now [] req.promo_code).1).orders ++ _)).map
        (fun o => (o.subtotal, o.total_amount)) = some (0, 3)
    rw [hpr_db, List.find?_append]
    unfold findOrder at hfresh
    rw [hfresh]
    simp only [Option.none_or]
    rw [List.find?_cons_of_pos _ (by simp)]
    show some ((calculate_pricing db env.now [] req.promo_code).2.subtotal,
      (calculate_pricing db env.now [] req.promo_code).2.total) = some (0, 3)
    rw [hpr_sub, hpr_total]
  · show orderItemsOf (generate_payment_url env _ env.newOrderId _).1
      env.newOrderId = []
    unfold orderItemsOf
    rw [generate_payment_url_orderItems]
    show List.filter (fun it => it.order_id == env.newOrderId)
      (((calculate_pricing db env.now [] req.promo_code).1).orderItems ++
        List.map _ []) = []
    rw [hpr_db]
    simp only [List.map_nil, List.append_nil]
    unfold orderItemsOf at hfreshItems
    exact hfreshItems

/-- C9 witness: the empty-items request against the empty database. -/
theorem c9_witness :
    ∃ resp, (validate_and_create_order orderEnv0 emptyDb emptyReq).2 = .ok resp ∧
      resp.subtotal = 0 ∧ resp.discount_amount = 0 ∧ resp.tax_amount = 0 ∧
      resp.shipping_amount = 3 ∧ resp.total_amount = 3 ∧
      (findOrder (validate_and_create_order orderEnv0 emptyDb emptyReq).1
          orderEnv0.newOrderId).map (fun o => (o.subtotal, o.total_amount)) =
        some (0, 3) ∧
      orderItemsOf (validate_and_create_order orderEnv0 emptyDb emptyReq).1
        orderEnv0.newOrderId = [] :=
  c9_empty_order orderEnv0 emptyDb emptyReq rfl rfl rfl rfl rfl

/-- C10: when a valid promo code is applied, the usage-counter increment is
committed during the pricing step; if the Order/OrderItem persistence then
fails, the call errors with no order rows written, yet the incremented
counter survives in the database. -/
theorem c10_discount_commit_survives (env : OrderEnv) (db : Db)
    (req : CreateOrderRequest) (pc : String) (vitems : List ValidatedItem)
    (dc : DiscountCode)
    (hpc : req.promo_code = some pc) (hne : pc ≠ "")
    (hval : validate_order_items db req.items = .ok vitems)
    (hfound : findDiscountCode db (pyStrip pc) = some dc)
    (hvalid : (dc.is_valid env.now
      ((vitems.map (fun v => v.line_total)).sum)).1 = true)
    (hpersist : env.persistOk = false) :
    (validate_and_create_order env db req).2 = .error .persistFailed ∧
    (validate_and_create_order env db req).1.orders = db.orders ∧
    (validate_and_create_order env db req).1.orderItems = db.orderItems ∧
    findDiscountCode ((validate_and_create_order env db req).1) (pyStrip pc) =
      some dc.increment_usage := by
  have happ : apply_discount_code db env.now (pyStrip pc)
      ((vitems.map (fun v => v.line_total)).sum) =
      ({ db with
         discountCodes :=
           updateFirst
             (fun c => pyLower c.code == pyLower (pyStrip (pyStrip pc)))
             DiscountCode.increment_usage db.discountCodes },
       dc.calculate_discount env.now ((vitems.map (fun v => v.line_total)).sum),
       none) := by
    simp [apply_discount_code, hfound, hvalid]
  have hres1 : (resolve_discount db env.now req.promo_code
      ((vitems.map (fun v => v.line_total)).sum)).1 =
      { db with
        discountCodes :=
          updateFirst
            (fun c => pyLower c.code == pyLower (pyStrip (pyStrip pc)))
            DiscountCode.increment_usage db.discountCodes } := by
    rw [hpc]
    simp only [resolve_discount, if_neg hne, happ]
  have hout : (validate_and_create_order env db req).1 =
      (calculate_pricing db env.now vitems req.promo_code).1 := by
    unfold validate_and_create_order
    simp only [hval]
    rw [if_pos hpersist]
  have herr : (validate_and_create_order env db req).2 =
      .error .persistFailed := by
    unfold validate_and_create_order
    simp only [hval]
    rw [if_pos hpersist]
  have hfound2 : List.find?
      (fun c => pyLower c.code == pyLower (pyStrip (pyStrip pc)))
      db.discountCodes = some dc := hfound
  have hpred := @List.find?_some _
    (fun c => pyLower c.code == pyLower (pyStrip (pyStrip pc))) dc
    db.discountCodes hfound2
  refine ⟨herr, ?_, ?_, ?_⟩
  · rw [hout, calculate_pricing_db, hres1]
  · rw [hout, calculate_pricing_db, hres1]
  · rw [hout, calculate_pricing_db, hres1]
    show List.find? (fun c => pyLower c.code == pyLower (pyStrip (pyStrip pc)))
      (updateFirst (fun c => pyLower c.code == pyLower (pyStrip (pyStrip pc)))
        DiscountCode.increment_usage db.discountCodes) = _
    exact find?_updateFirst _ _ _ _ hfound2 hpred

/-- C10 witness: ordering one glove with the valid code `SAVE10` while the
order-persistence transaction fails: the call errors, no order rows appear,
and `SAVE10` has its usage counter incremented from 3 to 4. -/
theorem c10_witness :
    (validate_and_create_order failPersistEnv catalogDb promoReq).2 =
      .error .persistFailed ∧
    (validate_and_create_order failPersistEnv catalogDb promoReq).1.orders =
      catalogDb.orders ∧
    (validate_and_create_order failPersistEnv catalogDb promoReq).1.orderItems =
      catalogDb.orderItems ∧
    findDiscountCode ((validate_and_create_order failPersistEnv catalogDb
      promoReq).1) (pyStrip "SAVE10") = some save10.increment_usage :=
  c10_discount_commit_survives failPersistEnv catalogDb promoReq "SAVE10"
    honestValidated save10 rfl (by decide) rfl rfl (by decide) rfl

end TotalKeepers
